import Mathlib

set_option maxRecDepth 8000

/-!
Verification of the goodwe register-codec core (sensor.py, inverter.py, dt.py)
against its natural-language specification.  Python functions are shallowly
embedded as executable Lean definitions; machine integers are modelled as
Int with explicit two-complement conversion, fallible decoding as Except.
-/

namespace Goodwe

/-- Modelled from the spec: ProtocolResponse (protocol.py is not under src/).
A register buffer over the response payload with a mutable cursor; seek sets
the cursor to the byte position derived from the given offset, and read n
returns up to n bytes (whatever is available) while advancing the cursor by n.
Bytes are Nat values below 256. -/
structure ProtocolResponse where
  data : List Nat
  cursor : Nat
deriving Repr, DecidableEq

def ProtocolResponse.seek (r : ProtocolResponse) (offset : Nat) : ProtocolResponse :=
  { r with cursor := offset }

def ProtocolResponse.read (r : ProtocolResponse) (n : Nat) : List Nat × ProtocolResponse :=
  ((r.data.drop r.cursor).take n, { r with cursor := r.cursor + n })

/-- Big-endian unsigned value of a byte list, as int.from_bytes(bs, signed=False). -/
def bytesToUnsigned (bs : List Nat) : Nat :=
  bs.foldl (fun a b => a * 256 + b) 0

/-- Big-endian signed value of a byte list, as int.from_bytes(bs, signed=True);
the empty list yields 0, matching Python. -/
def bytesToSigned (bs : List Nat) : Int :=
  if bytesToUnsigned bs < 2 ^ (8 * bs.length - 1) then (bytesToUnsigned bs : Int)
  else (bytesToUnsigned bs : Int) - 2 ^ (8 * bs.length)

/-- read_byte from sensor.py (offset-less form): one byte, signed. -/
def read_byte (r : ProtocolResponse) : Int × ProtocolResponse :=
  let p := r.read 1
  (bytesToSigned p.1, p.2)

/-- read_bytes2 from sensor.py (offset-less form): two bytes, signed big-endian. -/
def read_bytes2 (r : ProtocolResponse) : Int × ProtocolResponse :=
  let p := r.read 2
  (bytesToSigned p.1, p.2)

/-- read_bytes4 from sensor.py (offset-less form): four bytes, signed big-endian. -/
def read_bytes4 (r : ProtocolResponse) : Int × ProtocolResponse :=
  let p := r.read 4
  (bytesToSigned p.1, p.2)

/-- read_decimal2 from sensor.py: two signed bytes divided by the scale. -/
def read_decimal2 (r : ProtocolResponse) (scale : Int) : Rat × ProtocolResponse :=
  let p := r.read 2
  ((bytesToSigned p.1 : Rat) / (scale : Rat), p.2)

/-- DAY_NAMES from sensor.py. -/
def DAY_NAMES : List String := ["Sun", "Mon", "Tue", "Wed", "Thu", "Fri", "Sat"]

/-- Binary digits of a natural number, least significant first, no leading
zeros (empty for 0); fuel-structured so that the kernel can evaluate it.
The fuel n itself always suffices since the argument halves each step. -/
def natBitsAux : Nat → Nat → List Char
  | 0, _ => []
  | _, 0 => []
  | fuel + 1, n + 1 =>
    (if (n + 1) % 2 = 1 then '1' else '0') :: natBitsAux fuel ((n + 1) / 2)

def natBits (n : Nat) : List Char := natBitsAux n n

/-- The character sequence Python iterates in decode_day_of_week: bin(d)[2:]
reversed.  For d >= 0 this is the binary digits of d least-significant first
(just "0" for 0); for d < 0, bin(d) is "-0b" followed by the binary digits of
the magnitude, so bin(d)[2:] reversed is those digits LSB-first followed by
the letter b. -/
def pyBinReversed (d : Int) : List Char :=
  if d < 0 then natBits d.natAbs ++ ['b']
  else if d = 0 then ['0']
  else natBits d.toNat

/-- Python exceptions raised by composite decoding: ValueError carrying the
offending field and value, or the IndexError raised by daynames.pop(0) on an
empty list inside decode_day_of_week. -/
inductive DecodeErr where
  | rangeError (field : String) (value : Rat)
  | indexError
deriving Repr, DecidableEq

/-- Loop of decode_day_of_week from sensor.py: for each character (reversed
bit string), append the head day name when the character is 1, then pop the
head; popping (or indexing) an empty list raises IndexError. -/
def dayLoop : List Char → List String → String → Except DecodeErr String
  | [], _, days => .ok days
  | _ :: _, [], _ => .error .indexError
  | c :: rest, d :: ds, days =>
    dayLoop rest ds (if c = '1' then (if days = "" then d else days ++ "," ++ d) else days)

/-- decode_day_of_week from sensor.py. -/
def decode_day_of_week (d : Int) : Except DecodeErr String :=
  dayLoop (pyBinReversed d) DAY_NAMES ""

/-- Field values produced by EcoModeV1.read_value. -/
structure EcoModeV1F where
  start_h : Int
  start_m : Int
  end_h : Int
  end_m : Int
  power : Int
  on_off : Int
  day_bits : Int
  days : String
deriving Repr, DecidableEq

/-- EcoModeV1.read_value from sensor.py: 8-byte layout, field order start_h,
start_m, end_h, end_m, power (2 bytes), on_off, day_bits, with the checks of
the source in source order (days is computed before the day_bits range check). -/
def EcoModeV1.read_value (data : ProtocolResponse) : Except DecodeErr EcoModeV1F :=
  let p1 := read_byte data
  let start_h := p1.1
  if (start_h < 0 ∨ 23 < start_h) ∧ start_h ≠ 48 then .error (.rangeError "start_h" start_h)
  else
    let p2 := read_byte p1.2
    let start_m := p2.1
    if start_m < 0 ∨ 59 < start_m then .error (.rangeError "start_m" start_m)
    else
      let p3 := read_byte p2.2
      let end_h := p3.1
      if (end_h < 0 ∨ 23 < end_h) ∧ end_h ≠ 48 then .error (.rangeError "end_h" end_h)
      else
        let p4 := read_byte p3.2
        let end_m := p4.1
        if end_m < 0 ∨ 59 < end_m then .error (.rangeError "end_m" end_m)
        else
          let p5 := read_bytes2 p4.2
          let power := p5.1
          if power < -100 ∨ 100 < power then .error (.rangeError "power" power)
          else
            let p6 := read_byte p5.2
            let on_off := p6.1
            if ¬(on_off = 0 ∨ on_off = -1) then .error (.rangeError "on_off" on_off)
            else
              let p7 := read_byte p6.2
              let day_bits := p7.1
              match decode_day_of_week day_bits with
              | .error e => .error e
              | .ok days =>
                if day_bits < 0 then .error (.rangeError "day_bits" day_bits)
                else .ok ⟨start_h, start_m, end_h, end_m, power, on_off, day_bits, days⟩

/-- EcoModeV1.is_eco_charge_mode from sensor.py. -/
def EcoModeV1F.is_eco_charge_mode (f : EcoModeV1F) : Bool :=
  f.start_h == 0 && f.start_m == 0 && f.end_h == 23 && f.end_m == 59 &&
    f.on_off != 0 && f.day_bits == 127 && decide (f.power < 0)

/-- EcoModeV1.is_eco_discharge_mode from sensor.py. -/
def EcoModeV1F.is_eco_discharge_mode (f : EcoModeV1F) : Bool :=
  f.start_h == 0 && f.start_m == 0 && f.end_h == 23 && f.end_m == 59 &&
    f.on_off != 0 && f.day_bits == 127 && decide (0 < f.power)

/-- Big-endian 16-bit byte pair of a value below 65536, as the 4-hex-digit
formatting used by the eco-mode encoders. -/
def word16 (v : Nat) : List Nat := [v / 256 % 256, v % 256]

/-- EcoModeV1.encode_charge from sensor.py: hex 0000173b, then the power
(negated absolute value, masked to 16 bits), then ff7f. -/
def EcoModeV1.encode_charge (p : Int) : List Nat :=
  [0x00, 0x00, 0x17, 0x3b] ++ word16 ((-(p.natAbs : Int)).emod (2 ^ 16)).toNat ++ [0xff, 0x7f]

/-- EcoModeV1.encode_discharge from sensor.py; the 04x formatting of the
absolute power yields its two big-endian bytes (power is a percentage, so it
is below 2 to the 16). -/
def EcoModeV1.encode_discharge (p : Int) : List Nat :=
  [0x00, 0x00, 0x17, 0x3b] ++ word16 p.natAbs ++ [0xff, 0x7f]

/-- EcoModeV1.encode_off from sensor.py. -/
def EcoModeV1.encode_off : List Nat :=
  [0x30, 0x00, 0x30, 0x00, 0x00, 0x64, 0x00, 0x00]

/-- Field values produced by EcoModeV2.read_value. -/
structure EcoModeV2F where
  start_h : Int
  start_m : Int
  end_h : Int
  end_m : Int
  on_off : Int
  day_bits : Int
  days : String
  power : Int
  soc : Int
deriving Repr, DecidableEq

/-- EcoModeV2.read_value from sensor.py: 12-byte layout, field order start_h,
start_m, end_h, end_m, on_off, day_bits, power (2 bytes), soc (2 bytes), two
trailing padding bytes left unread; checks in source order. -/
def EcoModeV2.read_value (data : ProtocolResponse) : Except DecodeErr EcoModeV2F :=
  let p1 := read_byte data
  let start_h := p1.1
  if (start_h < 0 ∨ 23 < start_h) ∧ start_h ≠ 48 then .error (.rangeError "start_h" start_h)
  else
    let p2 := read_byte p1.2
    let start_m := p2.1
    if start_m < 0 ∨ 59 < start_m then .error (.rangeError "start_m" start_m)
    else
      let p3 := read_byte p2.2
      let end_h := p3.1
      if (end_h < 0 ∨ 23 < end_h) ∧ end_h ≠ 48 then .error (.rangeError "end_h" end_h)
      else
        let p4 := read_byte p3.2
        let end_m := p4.1
        if end_m < 0 ∨ 59 < end_m then .error (.rangeError "end_m" end_m)
        else
          let p5 := read_byte p4.2
          let on_off := p5.1
          if ¬(on_off = 0 ∨ on_off = -1 ∨ on_off = 85) then .error (.rangeError "on_off" on_off)
          else
            let p6 := read_byte p5.2
            let day_bits := p6.1
            match decode_day_of_week day_bits with
            | .error e => .error e
            | .ok days =>
              if day_bits < 0 then .error (.rangeError "day_bits" day_bits)
              else
                let p7 := read_bytes2 p6.2
                let power := p7.1
                if power < -100 ∨ 100 < power then .error (.rangeError "power" power)
                else
                  let p8 := read_bytes2 p7.2
                  let soc := p8.1
                  if soc < 0 ∨ 100 < soc then .error (.rangeError "SoC" soc)
                  else .ok ⟨start_h, start_m, end_h, end_m, on_off, day_bits, days, power, soc⟩

/-- EcoModeV2.is_eco_charge_mode from sensor.py; note the source requires
on_off to equal -1 here, unlike the V1 variant which only requires it
different from 0. -/
def EcoModeV2F.is_eco_charge_mode (f : EcoModeV2F) : Bool :=
  f.start_h == 0 && f.start_m == 0 && f.end_h == 23 && f.end_m == 59 &&
    f.on_off == -1 && f.day_bits == 127 && decide (f.power < 0)

/-- EcoModeV2.is_eco_discharge_mode from sensor.py. -/
def EcoModeV2F.is_eco_discharge_mode (f : EcoModeV2F) : Bool :=
  f.start_h == 0 && f.start_m == 0 && f.end_h == 23 && f.end_m == 59 &&
    f.on_off == -1 && f.day_bits == 127 && decide (0 < f.power)

/-- EcoModeV2.encode_charge from sensor.py: hex 0000173bff7f, the 16-bit
masked negated absolute power, the state of charge, then 0000 padding. -/
def EcoModeV2.encode_charge (p : Int) (soc : Nat) : List Nat :=
  [0x00, 0x00, 0x17, 0x3b, 0xff, 0x7f] ++ word16 ((-(p.natAbs : Int)).emod (2 ^ 16)).toNat
    ++ word16 soc ++ [0x00, 0x00]

/-- EcoModeV2.encode_discharge from sensor.py: hex 0000173bff7f, the absolute
power, then the fixed hex 00640000 (state of charge 100 and padding); the
encoder takes no state-of-charge parameter. -/
def EcoModeV2.encode_discharge (p : Int) : List Nat :=
  [0x00, 0x00, 0x17, 0x3b, 0xff, 0x7f] ++ word16 p.natAbs ++ [0x00, 0x64, 0x00, 0x00]

/-- EcoModeV2.encode_off from sensor.py. -/
def EcoModeV2.encode_off : List Nat :=
  [0x30, 0x00, 0x30, 0x00, 0x00, 0x00, 0x00, 0x64, 0x00, 0x64, 0x00, 0x00]

/-- Field values produced by PeakShavingMode.read_value. -/
structure PeakShavingF where
  start_h : Int
  start_m : Int
  end_h : Int
  end_m : Int
  on_off : Int
  day_bits : Int
  days : String
  importPower : Rat
  soc : Int
deriving Repr, DecidableEq

/-- PeakShavingMode.read_value from sensor.py: 12-byte layout, field order
start_h, start_m, end_h, end_m, on_off, day_bits, import power (2 bytes
scaled by 100), soc (2 bytes), two trailing padding bytes left unread;
checks in source order. -/
def PeakShavingMode.read_value (data : ProtocolResponse) : Except DecodeErr PeakShavingF :=
  let p1 := read_byte data
  let start_h := p1.1
  if (start_h < 0 ∨ 23 < start_h) ∧ start_h ≠ 48 then .error (.rangeError "start_h" start_h)
  else
    let p2 := read_byte p1.2
    let start_m := p2.1
    if start_m < 0 ∨ 59 < start_m then .error (.rangeError "start_m" start_m)
    else
      let p3 := read_byte p2.2
      let end_h := p3.1
      if (end_h < 0 ∨ 23 < end_h) ∧ end_h ≠ 48 then .error (.rangeError "end_h" end_h)
      else
        let p4 := read_byte p3.2
        let end_m := p4.1
        if end_m < 0 ∨ 59 < end_m then .error (.rangeError "end_m" end_m)
        else
          let p5 := read_byte p4.2
          let on_off := p5.1
          if ¬(on_off = -4 ∨ on_off = 3 ∨ on_off = 85) then .error (.rangeError "on_off" on_off)
          else
            let p6 := read_byte p5.2
            let day_bits := p6.1
            match decode_day_of_week day_bits with
            | .error e => .error e
            | .ok days =>
              if day_bits < 0 then .error (.rangeError "day_bits" day_bits)
              else
                let p7 := read_decimal2 p6.2 100
                let ip := p7.1
                if ip < 0 ∨ 500 < ip then .error (.rangeError "import_power" ip)
                else
                  let p8 := read_bytes2 p7.2
                  let soc := p8.1
                  if soc < 0 ∨ 100 < soc then .error (.rangeError "soc" soc)
                  else .ok ⟨start_h, start_m, end_h, end_m, on_off, day_bits, days, ip, soc⟩

/-- Result of the IEEE-754 single-precision unpack used by read_float4:
a finite rational, an infinity, or not-a-number. -/
inductive FloatVal where
  | finite (q : Rat)
  | inf
  | negInf
  | nan
deriving Repr, DecidableEq

/-- Big-endian IEEE-754 single-precision decoding of exactly 4 bytes, the
unpack of read_float4 in sensor.py. -/
def decodeIeee754 (bs : List Nat) : FloatVal :=
  let u : Nat := bytesToUnsigned bs
  let sign : Nat := u / 2 ^ 31
  let expo : Nat := u / 2 ^ 23 % 2 ^ 8
  let frac : Nat := u % 2 ^ 23
  if expo = 255 then (if frac = 0 then (if sign = 1 then .negInf else .inf) else .nan)
  else
    let mag : Rat :=
      if expo = 0 then (frac : Rat) / 2 ^ 149
      else ((2 ^ 23 + frac : Nat) : Rat) * 2 ^ expo / 2 ^ 150
    .finite (if sign = 1 then -mag else mag)

/-- read_float4 from sensor.py (offset-less form): read 4 bytes; if fewer
than 4 bytes were available, silently answer 0.0 instead of failing. -/
def read_float4 (r : ProtocolResponse) : FloatVal × ProtocolResponse :=
  let p := r.read 4
  if p.1.length = 4 then (decodeIeee754 p.1, p.2) else (.finite 0, p.2)

/-- Sensor.read from inverter.py specialized to the 2-byte Integer codec:
seek to the sensor offset, then read_value, which is read_bytes2. -/
def Integer.read (offset : Nat) (r : ProtocolResponse) : Int :=
  (read_bytes2 (r.seek offset)).1

/-- Label lookup of decode_bitmap: bitmap.get(i, err-string). -/
def bitmapGet (bitmap : List (Nat × String)) (i : Nat) : String :=
  match bitmap.find? (fun p => p.1 == i) with
  | some p => p.2
  | none => "err" ++ toString i

/-- Loop of decode_bitmap from sensor.py: for 32 bit positions in ascending
index order, collect the label of every set bit, shifting the value right by
one each step (arithmetic shift, as Python on negative ints). -/
def decode_bitmap_go (bitmap : List (Nat × String)) : Int → Nat → Nat → List String
  | _, _, 0 => []
  | bits, i, n + 1 =>
    (if bits.emod 2 = 1 then [bitmapGet bitmap i] else [])
      ++ decode_bitmap_go bitmap (bits.fdiv 2) (i + 1) n

/-- decode_bitmap from sensor.py. -/
def decode_bitmap (value : Int) (bitmap : List (Nat × String)) : String :=
  String.intercalate ", " (decode_bitmap_go bitmap value 0 32)

/-- EnumBitmap22.read from sensor.py, as written in the source: the
expression high shl 16 + low parses in Python as high shifted left by
(16 + low), because + binds tighter than the shift.  The shift amount is
modelled with toNat; for a negative amount Python would raise, which no
claim exercises. -/
def EnumBitmap22.read (offsetH offsetL : Nat) (labels : List (Nat × String))
    (r : ProtocolResponse) : String :=
  let high := (read_bytes2 (r.seek offsetH)).1
  let low := (read_bytes2 (r.seek offsetL)).1
  decode_bitmap (high * 2 ^ (16 + low).toNat) labels

/-- Modelled from the spec: the 2+2 bitmap join as the spec words it, the
16-bit value at the high offset shifted left by 16 plus the 16-bit value at
the low offset, for comparison with EnumBitmap22.read above. -/
def EnumBitmap22.read_joined (offsetH offsetL : Nat) (labels : List (Nat × String))
    (r : ProtocolResponse) : String :=
  let high := (read_bytes2 (r.seek offsetH)).1
  let low := (read_bytes2 (r.seek offsetL)).1
  decode_bitmap (high * 2 ^ 16 + low) labels

/-- Energy.read_value from sensor.py: 2-byte signed value; -1 answers None,
any other value is divided by 10. -/
def Energy.read_value (r : ProtocolResponse) : Option Rat :=
  let v := (read_bytes2 r).1
  if v = -1 then none else some ((v : Rat) / 10)

/-- Energy4.read_value from sensor.py: 4-byte signed value; -1 answers None,
any other value is divided by 10. -/
def Energy4.read_value (r : ProtocolResponse) : Option Rat :=
  let v := (read_bytes4 r).1
  if v = -1 then none else some ((v : Rat) / 10)

/-- Outcome of one sensor read inside the batch: a value, a ValueError, or
any other exception (which _map_response does not catch). -/
inductive ReadOutcome where
  | value (v : Int)
  | valueError
  | hardError
deriving Repr, DecidableEq

/-- A sensor as _map_response sees it: an id and the outcome its read method
produces against the (fixed) response; reads are pure in the response since
every read seeks to its own offset first. -/
structure MSensor where
  id_ : String
  outcome : ReadOutcome
deriving Repr, DecidableEq

/-- The id_.startswith xx test of _map_response. -/
def startsWithXX (s : String) : Bool :=
  match s.data with
  | 'x' :: 'x' :: _ => true
  | _ => false

/-- Python dict insertion: overwrite in place when the key exists, else
append, preserving insertion order. -/
def dictInsert (d : List (String × Option Int)) (k : String) (v : Option Int) :
    List (String × Option Int) :=
  if d.any (fun p => p.1 == k) then d.map (fun p => if p.1 == k then (k, v) else p)
  else d ++ [(k, v)]

/-- Loop of Inverter._map_response from inverter.py: for each sensor passing
the incl_xx filter, store its value; a ValueError stores None instead; any
other exception escapes and aborts the batch. -/
def map_response_go : List MSensor → Bool → List (String × Option Int) →
    Except Unit (List (String × Option Int))
  | [], _, acc => .ok acc
  | s :: rest, incl_xx, acc =>
    if incl_xx || !startsWithXX s.id_ then
      match s.outcome with
      | .value v => map_response_go rest incl_xx (dictInsert acc s.id_ (some v))
      | .valueError => map_response_go rest incl_xx (dictInsert acc s.id_ none)
      | .hardError => .error ()
    else map_response_go rest incl_xx acc

/-- Inverter._map_response from inverter.py. -/
def map_response (sensors : List MSensor) (incl_xx : Bool) :
    Except Unit (List (String × Option Int)) :=
  map_response_go sensors incl_xx []

/-- The value a sensor contributes to the result dictionary: its decoded
value, or none after a swallowed ValueError. -/
def outcomeValue : ReadOutcome → Option Int
  | .value v => some v
  | _ => none

/-- The failure surfaced by _read_from_socket: message plus the updated
consecutive-failure counter. -/
structure RequestFailed where
  message : String
  consecutiveFailuresCount : Nat
deriving Repr, DecidableEq

/-- Outcome of command.execute inside _read_from_socket: success, a
MaxRetriesException, or a RequestFailedException with a message. -/
inductive ExecOutcome where
  | success (resp : ProtocolResponse)
  | maxRetries
  | requestFailed (msg : String)
deriving Repr, DecidableEq

/-- Inverter._read_from_socket from inverter.py, as a transition on the
consecutive-failures counter: success resets the counter to 0 and returns
the response; either failure increments the counter and raises a
RequestFailedException carrying the updated counter. -/
def read_from_socket (failures retries : Nat) (outcome : ExecOutcome) :
    Nat × Except RequestFailed ProtocolResponse :=
  match outcome with
  | .success r => (0, .ok r)
  | .maxRetries =>
    (failures + 1,
      .error ⟨"No valid response received even after " ++ toString retries ++ " retries",
        failures + 1⟩)
  | .requestFailed m => (failures + 1, .error ⟨m, failures + 1⟩)

/-- The Modbus write command DT.write_setting sends: a single-register write
carrying a 2-byte value, or a multi-register write carrying a payload. -/
inductive ModbusWriteCmd where
  | single (comm_addr offset : Nat) (value : Int)
  | multi (comm_addr offset : Nat) (payload : List Nat)
deriving Repr, DecidableEq

/-- Command selection of DT.write_setting from dt.py: when the encoded raw
value is 2 bytes or fewer it is sent as a single-register write of its
signed big-endian value, otherwise as a multi-register write of the raw
payload. -/
def DT.write_setting_command (comm_addr offset : Nat) (raw_value : List Nat) : ModbusWriteCmd :=
  if raw_value.length ≤ 2 then .single comm_addr offset (bytesToSigned raw_value)
  else .multi comm_addr offset raw_value

/-- DT.set_grid_export_limit from dt.py: delegate to writing the
grid_export_limit setting only when the limit is non-negative; otherwise do
nothing at all (no command, no error). -/
def DT.set_grid_export_limit (export_limit : Int) : Option (String × Int) :=
  if export_limit ≥ 0 then some ("grid_export_limit", export_limit) else none

/-- Whether an Except value is a success. -/
def isOkE {ε α : Type} : Except ε α → Bool
  | .ok _ => true
  | .error _ => false

instance {ε α : Type} [DecidableEq ε] [DecidableEq α] : DecidableEq (Except ε α) :=
  fun a b =>
    match a, b with
    | .ok x, .ok y =>
      if h : x = y then .isTrue (by rw [h]) else .isFalse (fun hc => h (Except.ok.inj hc))
    | .error x, .error y =>
      if h : x = y then .isTrue (by rw [h]) else .isFalse (fun hc => h (Except.error.inj hc))
    | .ok _, .error _ => .isFalse (fun hc => Except.noConfusion hc)
    | .error _, .ok _ => .isFalse (fun hc => Except.noConfusion hc)

/-- Validity of an hour field: the source aborts unless the value is in
[0,23] or is the sentinel 48. -/
def hourOk (v : Int) : Prop := (0 ≤ v ∧ v ≤ 23) ∨ v = 48

instance (v : Int) : Decidable (hourOk v) := by unfold hourOk; infer_instance

/-- Validity of a minute field: the source aborts unless the value is in
[0,59]. -/
def minuteOk (v : Int) : Prop := 0 ≤ v ∧ v ≤ 59

instance (v : Int) : Decidable (minuteOk v) := by unfold minuteOk; infer_instance

/-- The check cascade of EcoModeV1.read_value as a function of the seven
decoded field values; read_value on an 8-byte buffer reduces to this
definitionally (see the eval lemma below). -/
def v1Check (sh sm eh em pw oo db : Int) : Except DecodeErr EcoModeV1F :=
  if (sh < 0 ∨ 23 < sh) ∧ sh ≠ 48 then .error (.rangeError "start_h" sh)
  else if sm < 0 ∨ 59 < sm then .error (.rangeError "start_m" sm)
  else if (eh < 0 ∨ 23 < eh) ∧ eh ≠ 48 then .error (.rangeError "end_h" eh)
  else if em < 0 ∨ 59 < em then .error (.rangeError "end_m" em)
  else if pw < -100 ∨ 100 < pw then .error (.rangeError "power" pw)
  else if ¬(oo = 0 ∨ oo = -1) then .error (.rangeError "on_off" oo)
  else match decode_day_of_week db with
    | .error e => .error e
    | .ok days =>
      if db < 0 then .error (.rangeError "day_bits" db)
      else .ok ⟨sh, sm, eh, em, pw, oo, db, days⟩

/-- The check cascade of EcoModeV2.read_value as a function of the eight
decoded field values. -/
def v2Check (sh sm eh em oo db pw soc : Int) : Except DecodeErr EcoModeV2F :=
  if (sh < 0 ∨ 23 < sh) ∧ sh ≠ 48 then .error (.rangeError "start_h" sh)
  else if sm < 0 ∨ 59 < sm then .error (.rangeError "start_m" sm)
  else if (eh < 0 ∨ 23 < eh) ∧ eh ≠ 48 then .error (.rangeError "end_h" eh)
  else if em < 0 ∨ 59 < em then .error (.rangeError "end_m" em)
  else if ¬(oo = 0 ∨ oo = -1 ∨ oo = 85) then .error (.rangeError "on_off" oo)
  else match decode_day_of_week db with
    | .error e => .error e
    | .ok days =>
      if db < 0 then .error (.rangeError "day_bits" db)
      else if pw < -100 ∨ 100 < pw then .error (.rangeError "power" pw)
      else if soc < 0 ∨ 100 < soc then .error (.rangeError "SoC" soc)
      else .ok ⟨sh, sm, eh, em, oo, db, days, pw, soc⟩

/-- The check cascade of PeakShavingMode.read_value as a function of the
eight decoded field values. -/
def psCheck (sh sm eh em oo db : Int) (ip : Rat) (soc : Int) : Except DecodeErr PeakShavingF :=
  if (sh < 0 ∨ 23 < sh) ∧ sh ≠ 48 then .error (.rangeError "start_h" sh)
  else if sm < 0 ∨ 59 < sm then .error (.rangeError "start_m" sm)
  else if (eh < 0 ∨ 23 < eh) ∧ eh ≠ 48 then .error (.rangeError "end_h" eh)
  else if em < 0 ∨ 59 < em then .error (.rangeError "end_m" em)
  else if ¬(oo = -4 ∨ oo = 3 ∨ oo = 85) then .error (.rangeError "on_off" oo)
  else match decode_day_of_week db with
    | .error e => .error e
    | .ok days =>
      if db < 0 then .error (.rangeError "day_bits" db)
      else if ip < 0 ∨ 500 < ip then .error (.rangeError "import_power" ip)
      else if soc < 0 ∨ 100 < soc then .error (.rangeError "soc" soc)
      else .ok ⟨sh, sm, eh, em, oo, db, days, ip, soc⟩

/-- Claim C1: for the eco-mode v2 composite, encoding a full-time discharge at
power 30 with state-of-charge 80 and then decoding the produced 12 bytes
yields power 30, soc 80, and is_eco_discharge_mode true.  This is refuted:
encode_discharge takes no state-of-charge parameter and always encodes a
state of charge of 100, so the decoded soc is 100, not 80. -/
theorem ecoModeV2_discharge_roundtrip_soc_not_80 :
    (EcoModeV2.read_value ⟨EcoModeV2.encode_discharge 30, 0⟩).map (fun f => f.soc)
      = .ok 100 ∧ (100 : Int) ≠ 80 := by
  constructor
  · rfl
  · decide

/-- Claim C1 (amended): encoding a full-time discharge at power 30 and then
decoding the produced 12 bytes yields power 30, soc 100 (the discharge
encoder accepts no state-of-charge parameter and always encodes 100), and
is_eco_discharge_mode true. -/
theorem ecoModeV2_discharge_roundtrip :
    EcoModeV2.read_value ⟨EcoModeV2.encode_discharge 30, 0⟩
      = .ok ⟨0, 0, 23, 59, -1, 127, "Sun,Mon,Tue,Wed,Thu,Fri,Sat", 30, 100⟩ ∧
    (EcoModeV2.read_value ⟨EcoModeV2.encode_discharge 30, 0⟩).map
        (fun f => (f.power, f.soc, f.is_eco_discharge_mode))
      = .ok (30, 100, true) := by
  constructor
  · rfl
  · rfl

/-- The reversed-bit-string loop of decode_day_of_week can only raise the
IndexError of popping an exhausted day-name list. -/
lemma dayLoop_error_eq (chars : List Char) :
    ∀ (names : List String) (acc : String) (e : DecodeErr),
      dayLoop chars names acc = .error e → e = .indexError := by
  induction chars with
  | nil =>
    intro names acc e h
    simp [dayLoop] at h
  | cons c rest ih =>
    intro names acc e h
    cases names with
    | nil =>
      simp only [dayLoop] at h
      exact (Except.error.inj h).symm
    | cons d ds => exact ih ds _ e h

lemma decode_day_of_week_error_eq (d : Int) (e : DecodeErr)
    (h : decode_day_of_week d = .error e) : e = .indexError :=
  dayLoop_error_eq _ _ _ _ h

/-- Day-of-week decoding of a signed byte fails exactly when the byte is in
[128, 192], that is, when the signed value is negative with a magnitude of
at least 64: the magnitude then has at least 7 binary digits, and together
with the sign marker character the loop pops the 7-entry day-name list dry. -/
lemma decode_day_of_week_byte_fails :
    ∀ b : Nat, b < 256 →
      (isOkE (decode_day_of_week (bytesToSigned [b])) = false ↔ (128 ≤ b ∧ b ≤ 192)) := by
  decide

/-- Signed value of a single byte. -/
lemma bytesToSigned_byte :
    ∀ b : Nat, b < 256 →
      bytesToSigned [b] = if b < 128 then (b : Int) else (b : Int) - 256 := by
  decide

/-- Claim C2: the claim states that for both eco-mode layouts the charge
predicate requires only on_off different from the off sentinel 0.  This is
refuted for the v2 layout: the 12 bytes below decode successfully with
on_off 85 (a valid code different from 0), all-day window and negative
power, yet is_eco_charge_mode answers false, because the source requires
on_off to be exactly -1. -/
theorem ecoModeV2_on_off_85_not_charge :
    EcoModeV2.read_value ⟨[0, 0, 23, 59, 85, 127, 255, 206, 0, 100, 0, 0], 0⟩
      = .ok ⟨0, 0, 23, 59, 85, 127, "Sun,Mon,Tue,Wed,Thu,Fri,Sat", -50, 100⟩ ∧
    (85 : Int) ≠ 0 ∧ (-50 : Int) < 0 ∧
    EcoModeV2F.is_eco_charge_mode
        ⟨0, 0, 23, 59, 85, 127, "Sun,Mon,Tue,Wed,Thu,Fri,Sat", -50, 100⟩ = false := by
  exact ⟨rfl, by decide, by decide, by decide⟩

/-- Claim C2 (amended): for every successfully decoded composite, the v1
predicates hold iff start 00:00, end 23:59, all seven day bits, power of the
right sign, and on_off different from 0; the v2 predicates instead require
on_off to be exactly -1 (the valid code 85 does not count as eco mode). -/
theorem eco_mode_predicate_characterization :
    (∀ (r : ProtocolResponse) (f : EcoModeV1F), EcoModeV1.read_value r = .ok f →
      (f.is_eco_charge_mode = true ↔
        (f.start_h = 0 ∧ f.start_m = 0 ∧ f.end_h = 23 ∧ f.end_m = 59 ∧
         f.day_bits = 127 ∧ f.power < 0 ∧ f.on_off ≠ 0)) ∧
      (f.is_eco_discharge_mode = true ↔
        (f.start_h = 0 ∧ f.start_m = 0 ∧ f.end_h = 23 ∧ f.end_m = 59 ∧
         f.day_bits = 127 ∧ 0 < f.power ∧ f.on_off ≠ 0))) ∧
    (∀ (r : ProtocolResponse) (f : EcoModeV2F), EcoModeV2.read_value r = .ok f →
      (f.is_eco_charge_mode = true ↔
        (f.start_h = 0 ∧ f.start_m = 0 ∧ f.end_h = 23 ∧ f.end_m = 59 ∧
         f.day_bits = 127 ∧ f.power < 0 ∧ f.on_off = -1)) ∧
      (f.is_eco_discharge_mode = true ↔
        (f.start_h = 0 ∧ f.start_m = 0 ∧ f.end_h = 23 ∧ f.end_m = 59 ∧
         f.day_bits = 127 ∧ 0 < f.power ∧ f.on_off = -1))) := by
  constructor
  · intro r f _
    constructor
    · simp only [EcoModeV1F.is_eco_charge_mode, Bool.and_eq_true, beq_iff_eq,
        bne_iff_ne, decide_eq_true_eq]
      tauto
    · simp only [EcoModeV1F.is_eco_discharge_mode, Bool.and_eq_true, beq_iff_eq,
        bne_iff_ne, decide_eq_true_eq]
      tauto
  · intro r f _
    constructor
    · simp only [EcoModeV2F.is_eco_charge_mode, Bool.and_eq_true, beq_iff_eq,
        decide_eq_true_eq]
      tauto
    · simp only [EcoModeV2F.is_eco_discharge_mode, Bool.and_eq_true, beq_iff_eq,
        decide_eq_true_eq]
      tauto

theorem eco_mode_predicate_characterization_witness :
    EcoModeV1F.is_eco_charge_mode
        ⟨0, 0, 23, 59, -50, -1, 127, "Sun,Mon,Tue,Wed,Thu,Fri,Sat"⟩ = true :=
  ((eco_mode_predicate_characterization.1 ⟨[0, 0, 23, 59, 255, 206, 255, 127], 0⟩
      ⟨0, 0, 23, 59, -50, -1, 127, "Sun,Mon,Tue,Wed,Thu,Fri,Sat"⟩ (by rfl)).1).mpr
    ⟨rfl, rfl, rfl, rfl, rfl, by decide, by decide⟩

/-- Claim C3: the claim states that a sensor whose offset plus width exceeds
the payload fails with a range error.  This is refuted: a 2-byte Integer
read against a 1-byte payload silently answers the value decoded from the
single available byte, and read_float4 silently answers 0 when fewer than 4
bytes remain. -/
theorem out_of_bounds_read_not_range_error :
    (ProtocolResponse.mk [5] 0).data.length < 0 + 2 ∧
    Integer.read 0 ⟨[5], 0⟩ = 5 ∧
    (read_float4 ⟨[0, 0, 0], 0⟩).1 = FloatVal.finite 0 := by
  exact ⟨by decide, rfl, rfl⟩

/-- Claim C3 (amended): when a sensor read runs past the end of the payload,
the decode does not fail: the integer readers decode the signed value of
whatever bytes remain (0 when none remain), and read_float4 answers 0 when
fewer than 4 bytes remain. -/
theorem scalar_read_truncation :
    (∀ r : ProtocolResponse,
      (read_bytes2 r).1 = bytesToSigned ((r.data.drop r.cursor).take 2)) ∧
    (∀ r : ProtocolResponse, r.data.length ≤ r.cursor → (read_bytes2 r).1 = 0) ∧
    (∀ (bs : List Nat) (off : Nat), bs.length ≤ off → Integer.read off ⟨bs, 0⟩ = 0) ∧
    (∀ r : ProtocolResponse, (r.data.drop r.cursor).length < 4 →
      (read_float4 r).1 = FloatVal.finite 0) := by
  refine ⟨fun r => rfl, ?_, ?_, ?_⟩
  · intro r h
    show bytesToSigned ((r.data.drop r.cursor).take 2) = 0
    rw [List.drop_eq_nil_of_le h]
    rfl
  · intro bs off h
    show bytesToSigned ((bs.drop off).take 2) = 0
    rw [List.drop_eq_nil_of_le h]
    rfl
  · intro r h
    simp only [read_float4, ProtocolResponse.read]
    rw [if_neg]
    rw [List.length_take]
    omega

theorem scalar_read_truncation_witness :
    (read_bytes2 ⟨[1, 2], 5⟩).1 = 0 ∧ Integer.read 3 ⟨[9], 0⟩ = 0 ∧
    (read_float4 ⟨[1], 0⟩).1 = FloatVal.finite 0 :=
  ⟨scalar_read_truncation.2.1 ⟨[1, 2], 5⟩ (by decide),
   scalar_read_truncation.2.2.1 [9] 3 (by decide),
   scalar_read_truncation.2.2.2 ⟨[1], 0⟩ (by decide)⟩

/-- Claim C4: the split 2+2 bitmap is claimed to join high and low registers
as high shifted left by 16 plus low.  The source instead computes high
shifted left by (16 + low), because Python parses the addition first.  With
high = 1 and low = 1 the source decodes bit 17 ("C") whereas the claimed
join would decode bits 0 and 16 ("A, B"); bit collection itself matches the
spec example. -/
theorem enumBitmap22_shift_precedence :
    EnumBitmap22.read 0 2 [(0, "A"), (16, "B"), (17, "C")] ⟨[0, 1, 0, 1], 0⟩ = "C" ∧
    EnumBitmap22.read_joined 0 2 [(0, "A"), (16, "B"), (17, "C")] ⟨[0, 1, 0, 1], 0⟩
      = "A, B" ∧
    decode_bitmap 5 [(0, "A"), (2, "C")] = "A, C" := by
  exact ⟨rfl, rfl, rfl⟩

/-- Fresh-key insertion into the result dictionary appends. -/
lemma dictInsert_fresh (d : List (String × Option Int)) (k : String) (v : Option Int)
    (h : d.any (fun p => p.1 == k) = false) : dictInsert d k v = d ++ [(k, v)] := by
  simp [dictInsert, h]

/-- The batch loop with include-all filtering, pairwise distinct ids and no
uncaught exception produces the per-sensor dictionary in order. -/
lemma map_response_go_ok (l : List MSensor) :
    ∀ acc : List (String × Option Int),
      (∀ s ∈ l, s.outcome ≠ .hardError) →
      (∀ s ∈ l, acc.any (fun p => p.1 == s.id_) = false) →
      (l.map MSensor.id_).Nodup →
      map_response_go l true acc
        = .ok (acc ++ l.map fun s => (s.id_, outcomeValue s.outcome)) := by
  induction l with
  | nil => intro acc _ _ _; simp [map_response_go]
  | cons s rest ih =>
    intro acc hhard hfresh hnd
    have hs : s.outcome ≠ .hardError := hhard s (by simp)
    have hnd2 : s.id_ ∉ rest.map MSensor.id_ ∧ (rest.map MSensor.id_).Nodup := by
      rw [List.map_cons, List.nodup_cons] at hnd
      exact hnd
    have hfresh2 : ∀ s2 ∈ rest, ((acc ++ [(s.id_, outcomeValue s.outcome)]).any
        (fun p => p.1 == s2.id_)) = false := by
      intro s2 hs2
      rw [List.any_append]
      have h1 := hfresh s2 (by simp [hs2])
      have h2 : s.id_ ≠ s2.id_ := by
        intro he
        exact hnd2.1 (he ▸ List.mem_map_of_mem MSensor.id_ hs2)
      simp [h1, h2]
    cases ho : s.outcome with
    | hardError => exact absurd ho hs
    | value v =>
      simp only [map_response_go, ho, Bool.true_or, if_true]
      rw [dictInsert_fresh _ _ _ (hfresh s (by simp))]
      rw [ih _ (fun s2 h2 => hhard s2 (by simp [h2])) (by simpa [ho] using hfresh2) hnd2.2]
      simp [outcomeValue, ho]
    | valueError =>
      simp only [map_response_go, ho, Bool.true_or, if_true]
      rw [dictInsert_fresh _ _ _ (hfresh s (by simp))]
      rw [ih _ (fun s2 h2 => hhard s2 (by simp [h2])) (by simpa [ho] using hfresh2) hnd2.2]
      simp [outcomeValue, ho]

/-- Dictionary lookup in the produced batch result. -/
lemma lookup_map_sensors (l : List MSensor) :
    (l.map MSensor.id_).Nodup →
    ∀ s ∈ l, (l.map fun s => (s.id_, outcomeValue s.outcome)).lookup s.id_
      = some (outcomeValue s.outcome) := by
  induction l with
  | nil => intro _ s hs; simp at hs
  | cons a rest ih =>
    intro hnd s hs
    have hnd2 : a.id_ ∉ rest.map MSensor.id_ ∧ (rest.map MSensor.id_).Nodup := by
      rw [List.map_cons, List.nodup_cons] at hnd
      exact hnd
    rcases List.mem_cons.mp hs with rfl | hs2
    · simp [List.lookup]
    · have hne : s.id_ ≠ a.id_ := by
        intro he
        exact hnd2.1 (he ▸ List.mem_map_of_mem MSensor.id_ hs2)
      simp only [List.map_cons, List.lookup, beq_eq_false_iff_ne.mpr hne, if_neg]
      exact ih hnd2.2 s hs2

/-- Claim C6: in a batch telemetry read, a per-sensor ValueError maps that
sensor id to null instead of aborting the batch, and every other sensor is
still decoded and present (its id mapped to its value). -/
theorem map_response_swallows_value_errors :
    ∀ sensors : List MSensor,
      (sensors.map MSensor.id_).Nodup →
      (∀ s ∈ sensors, s.outcome ≠ .hardError) →
      map_response sensors true
          = .ok (sensors.map fun s => (s.id_, outcomeValue s.outcome)) ∧
      ∀ s ∈ sensors,
        (sensors.map fun s => (s.id_, outcomeValue s.outcome)).lookup s.id_
            = some (outcomeValue s.outcome) ∧
        (s.outcome = .valueError → outcomeValue s.outcome = none) := by
  intro sensors hnd hhard
  refine ⟨?_, fun s hs => ⟨lookup_map_sensors sensors hnd s hs,
    fun hv => by simp [outcomeValue, hv]⟩⟩
  have h := map_response_go_ok sensors [] hhard (by simp) hnd
  simpa [map_response] using h

theorem map_response_swallows_value_errors_witness :
    map_response [⟨"vpv1", .value 3⟩, ⟨"e_day", .valueError⟩] true
      = .ok [("vpv1", some 3), ("e_day", none)] :=
  ((map_response_swallows_value_errors [⟨"vpv1", .value 3⟩, ⟨"e_day", .valueError⟩]
      (by decide) (by decide)).1).trans rfl

/-- Claim C7: the consecutive-failure counter resets to 0 on success and is
incremented by one on every failed execution, and the failure raised to the
caller carries the updated counter value. -/
theorem consecutive_failures_counter :
    ∀ (failures retries : Nat) (o : ExecOutcome),
      (∀ resp, o = .success resp →
        read_from_socket failures retries o = (0, .ok resp)) ∧
      (o = .maxRetries ∨ (∃ m, o = .requestFailed m) →
        (read_from_socket failures retries o).1 = failures + 1 ∧
        ∃ e, (read_from_socket failures retries o).2 = .error e ∧
          e.consecutiveFailuresCount = failures + 1) := by
  intro failures retries o
  constructor
  · rintro resp rfl
    rfl
  · rintro (rfl | ⟨m, rfl⟩)
    · exact ⟨rfl, _, rfl, rfl⟩
    · exact ⟨rfl, _, rfl, rfl⟩

theorem consecutive_failures_counter_witness :
    (read_from_socket 2 3 (ExecOutcome.requestFailed "fail")).1 = 2 + 1 ∧
    read_from_socket 2 3 (ExecOutcome.success ⟨[], 0⟩) = (0, .ok ⟨[], 0⟩) :=
  ⟨((consecutive_failures_counter 2 3 (.requestFailed "fail")).2
      (Or.inr ⟨"fail", rfl⟩)).1,
   (consecutive_failures_counter 2 3 (.success ⟨[], 0⟩)).1 ⟨[], 0⟩ rfl⟩

/-- Claim C8: an encoded setting value of 2 bytes or fewer is sent as a
single-register write (never as a multi-register write), and a longer value
as a multi-register write. -/
theorem write_setting_single_vs_multi :
    ∀ (comm_addr offset : Nat) (raw_value : List Nat),
      (raw_value.length ≤ 2 →
        DT.write_setting_command comm_addr offset raw_value
            = .single comm_addr offset (bytesToSigned raw_value) ∧
        ∀ a o p, DT.write_setting_command comm_addr offset raw_value ≠ .multi a o p) ∧
      (2 < raw_value.length →
        DT.write_setting_command comm_addr offset raw_value
            = .multi comm_addr offset raw_value) := by
  intro a off raw
  constructor
  · intro h
    constructor
    · simp [DT.write_setting_command, h]
    · intro a2 o2 p
      simp [DT.write_setting_command, h]
  · intro h
    rw [DT.write_setting_command, if_neg (by omega)]

theorem write_setting_single_vs_multi_witness :
    DT.write_setting_command 127 40328 [0, 7] = .single 127 40328 7 ∧
    DT.write_setting_command 127 40328 [0, 0, 0, 7] = .multi 127 40328 [0, 0, 0, 7] :=
  ⟨(((write_setting_single_vs_multi 127 40328 [0, 7]).1 (by decide)).1).trans (by decide),
   (write_setting_single_vs_multi 127 40328 [0, 0, 0, 7]).2 (by decide)⟩

/-- Claim C9: for both energy codecs the raw value -1 decodes to an absent
value, any other raw value v decodes to v divided by 10, and -1 never
decodes to -0.1 (indeed no input decodes to -0.1). -/
theorem energy_sentinel_absent :
    ∀ r : ProtocolResponse,
      (Energy.read_value r = none ↔ (read_bytes2 r).1 = -1) ∧
      ((read_bytes2 r).1 ≠ -1 →
        Energy.read_value r = some (((read_bytes2 r).1 : Rat) / 10)) ∧
      Energy.read_value r ≠ some (-1 / 10) ∧
      (Energy4.read_value r = none ↔ (read_bytes4 r).1 = -1) ∧
      ((read_bytes4 r).1 ≠ -1 →
        Energy4.read_value r = some (((read_bytes4 r).1 : Rat) / 10)) ∧
      Energy4.read_value r ≠ some (-1 / 10) := by
  intro r
  refine ⟨?_, ?_, ?_, ?_, ?_, ?_⟩
  · by_cases h : (read_bytes2 r).1 = -1 <;> simp [Energy.read_value, h]
  · intro h; simp [Energy.read_value, h]
  · by_cases h : (read_bytes2 r).1 = -1 <;> simp [Energy.read_value, h]
    intro hc
    apply h
    have h10 : ((read_bytes2 r).1 : Rat) = -1 := by
      field_simp at hc
      linarith
    exact_mod_cast h10
  · by_cases h : (read_bytes4 r).1 = -1 <;> simp [Energy4.read_value, h]
  · intro h; simp [Energy4.read_value, h]
  · by_cases h : (read_bytes4 r).1 = -1 <;> simp [Energy4.read_value, h]
    intro hc
    apply h
    have h10 : ((read_bytes4 r).1 : Rat) = -1 := by
      field_simp at hc
      linarith
    exact_mod_cast h10

theorem energy_sentinel_absent_witness :
    Energy.read_value ⟨[0, 7], 0⟩ = some (((read_bytes2 ⟨[0, 7], 0⟩).1 : Rat) / 10) ∧
    Energy4.read_value ⟨[255, 255, 255, 255], 0⟩ = none :=
  ⟨(energy_sentinel_absent ⟨[0, 7], 0⟩).2.1 (by decide),
   ((energy_sentinel_absent ⟨[255, 255, 255, 255], 0⟩).2.2.2.1).mpr (by decide)⟩

/-- Claim C10: a negative export limit performs no write at all and raises
no error; only a non-negative limit delegates to writing the
grid_export_limit setting. -/
theorem set_grid_export_limit_guard :
    ∀ e : Int,
      (e < 0 → DT.set_grid_export_limit e = none) ∧
      (0 ≤ e → DT.set_grid_export_limit e = some ("grid_export_limit", e)) := by
  intro e
  constructor
  · intro h
    rw [DT.set_grid_export_limit, if_neg (by omega)]
  · intro h
    rw [DT.set_grid_export_limit, if_pos (by omega)]

theorem set_grid_export_limit_guard_witness :
    DT.set_grid_export_limit (-1) = none ∧
    DT.set_grid_export_limit 200 = some ("grid_export_limit", 200) :=
  ⟨(set_grid_export_limit_guard (-1)).1 (by decide),
   (set_grid_export_limit_guard 200).2 (by decide)⟩

/-- Reduction of the v1 composite decode to its check cascade over the
extracted field values. -/
lemma ecoModeV1_read_value_eval (b0 b1 b2 b3 b4 b5 b6 b7 : Nat) :
    EcoModeV1.read_value ⟨[b0, b1, b2, b3, b4, b5, b6, b7], 0⟩
      = v1Check (bytesToSigned [b0]) (bytesToSigned [b1]) (bytesToSigned [b2])
          (bytesToSigned [b3]) (bytesToSigned [b4, b5]) (bytesToSigned [b6])
          (bytesToSigned [b7]) := by
  have e1 : read_byte (⟨[b0, b1, b2, b3, b4, b5, b6, b7], 0⟩ : ProtocolResponse)
      = (bytesToSigned [b0], ⟨[b0, b1, b2, b3, b4, b5, b6, b7], 1⟩) := rfl
  have e2 : read_byte (⟨[b0, b1, b2, b3, b4, b5, b6, b7], 1⟩ : ProtocolResponse)
      = (bytesToSigned [b1], ⟨[b0, b1, b2, b3, b4, b5, b6, b7], 2⟩) := rfl
  have e3 : read_byte (⟨[b0, b1, b2, b3, b4, b5, b6, b7], 2⟩ : ProtocolResponse)
      = (bytesToSigned [b2], ⟨[b0, b1, b2, b3, b4, b5, b6, b7], 3⟩) := rfl
  have e4 : read_byte (⟨[b0, b1, b2, b3, b4, b5, b6, b7], 3⟩ : ProtocolResponse)
      = (bytesToSigned [b3], ⟨[b0, b1, b2, b3, b4, b5, b6, b7], 4⟩) := rfl
  have e5 : read_bytes2 (⟨[b0, b1, b2, b3, b4, b5, b6, b7], 4⟩ : ProtocolResponse)
      = (bytesToSigned [b4, b5], ⟨[b0, b1, b2, b3, b4, b5, b6, b7], 6⟩) := rfl
  have e6 : read_byte (⟨[b0, b1, b2, b3, b4, b5, b6, b7], 6⟩ : ProtocolResponse)
      = (bytesToSigned [b6], ⟨[b0, b1, b2, b3, b4, b5, b6, b7], 7⟩) := rfl
  have e7 : read_byte (⟨[b0, b1, b2, b3, b4, b5, b6, b7], 7⟩ : ProtocolResponse)
      = (bytesToSigned [b7], ⟨[b0, b1, b2, b3, b4, b5, b6, b7], 8⟩) := rfl
  simp only [EcoModeV1.read_value, v1Check, e1, e2, e3, e4, e5, e6, e7]

/-- Reduction of the v2 composite decode to its check cascade. -/
lemma ecoModeV2_read_value_eval (b0 b1 b2 b3 b4 b5 b6 b7 b8 b9 b10 b11 : Nat) :
    EcoModeV2.read_value ⟨[b0, b1, b2, b3, b4, b5, b6, b7, b8, b9, b10, b11], 0⟩
      = v2Check (bytesToSigned [b0]) (bytesToSigned [b1]) (bytesToSigned [b2])
          (bytesToSigned [b3]) (bytesToSigned [b4]) (bytesToSigned [b5])
          (bytesToSigned [b6, b7]) (bytesToSigned [b8, b9]) := by
  have e1 : read_byte (⟨[b0, b1, b2, b3, b4, b5, b6, b7, b8, b9, b10, b11], 0⟩ : ProtocolResponse)
      = (bytesToSigned [b0], ⟨[b0, b1, b2, b3, b4, b5, b6, b7, b8, b9, b10, b11], 1⟩) := rfl
  have e2 : read_byte (⟨[b0, b1, b2, b3, b4, b5, b6, b7, b8, b9, b10, b11], 1⟩ : ProtocolResponse)
      = (bytesToSigned [b1], ⟨[b0, b1, b2, b3, b4, b5, b6, b7, b8, b9, b10, b11], 2⟩) := rfl
  have e3 : read_byte (⟨[b0, b1, b2, b3, b4, b5, b6, b7, b8, b9, b10, b11], 2⟩ : ProtocolResponse)
      = (bytesToSigned [b2], ⟨[b0, b1, b2, b3, b4, b5, b6, b7, b8, b9, b10, b11], 3⟩) := rfl
  have e4 : read_byte (⟨[b0, b1, b2, b3, b4, b5, b6, b7, b8, b9, b10, b11], 3⟩ : ProtocolResponse)
      = (bytesToSigned [b3], ⟨[b0, b1, b2, b3, b4, b5, b6, b7, b8, b9, b10, b11], 4⟩) := rfl
  have e5 : read_byte (⟨[b0, b1, b2, b3, b4, b5, b6, b7, b8, b9, b10, b11], 4⟩ : ProtocolResponse)
      = (bytesToSigned [b4], ⟨[b0, b1, b2, b3, b4, b5, b6, b7, b8, b9, b10, b11], 5⟩) := rfl
  have e6 : read_byte (⟨[b0, b1, b2, b3, b4, b5, b6, b7, b8, b9, b10, b11], 5⟩ : ProtocolResponse)
      = (bytesToSigned [b5], ⟨[b0, b1, b2, b3, b4, b5, b6, b7, b8, b9, b10, b11], 6⟩) := rfl
  have e7 : read_bytes2 (⟨[b0, b1, b2, b3, b4, b5, b6, b7, b8, b9, b10, b11], 6⟩ : ProtocolResponse)
      = (bytesToSigned [b6, b7], ⟨[b0, b1, b2, b3, b4, b5, b6, b7, b8, b9, b10, b11], 8⟩) := rfl
  have e8 : read_bytes2 (⟨[b0, b1, b2, b3, b4, b5, b6, b7, b8, b9, b10, b11], 8⟩ : ProtocolResponse)
      = (bytesToSigned [b8, b9], ⟨[b0, b1, b2, b3, b4, b5, b6, b7, b8, b9, b10, b11], 10⟩) := rfl
  simp only [EcoModeV2.read_value, v2Check, e1, e2, e3, e4, e5, e6, e7, e8]

/-- Reduction of the peak-shaving composite decode to its check cascade. -/
lemma peakShaving_read_value_eval (b0 b1 b2 b3 b4 b5 b6 b7 b8 b9 b10 b11 : Nat) :
    PeakShavingMode.read_value ⟨[b0, b1, b2, b3, b4, b5, b6, b7, b8, b9, b10, b11], 0⟩
      = psCheck (bytesToSigned [b0]) (bytesToSigned [b1]) (bytesToSigned [b2])
          (bytesToSigned [b3]) (bytesToSigned [b4]) (bytesToSigned [b5])
          ((bytesToSigned [b6, b7] : Rat) / ((100 : Int) : Rat))
          (bytesToSigned [b8, b9]) := by
  have e1 : read_byte (⟨[b0, b1, b2, b3, b4, b5, b6, b7, b8, b9, b10, b11], 0⟩ : ProtocolResponse)
      = (bytesToSigned [b0], ⟨[b0, b1, b2, b3, b4, b5, b6, b7, b8, b9, b10, b11], 1⟩) := rfl
  have e2 : read_byte (⟨[b0, b1, b2, b3, b4, b5, b6, b7, b8, b9, b10, b11], 1⟩ : ProtocolResponse)
      = (bytesToSigned [b1], ⟨[b0, b1, b2, b3, b4, b5, b6, b7, b8, b9, b10, b11], 2⟩) := rfl
  have e3 : read_byte (⟨[b0, b1, b2, b3, b4, b5, b6, b7, b8, b9, b10, b11], 2⟩ : ProtocolResponse)
      = (bytesToSigned [b2], ⟨[b0, b1, b2, b3, b4, b5, b6, b7, b8, b9, b10, b11], 3⟩) := rfl
  have e4 : read_byte (⟨[b0, b1, b2, b3, b4, b5, b6, b7, b8, b9, b10, b11], 3⟩ : ProtocolResponse)
      = (bytesToSigned [b3], ⟨[b0, b1, b2, b3, b4, b5, b6, b7, b8, b9, b10, b11], 4⟩) := rfl
  have e5 : read_byte (⟨[b0, b1, b2, b3, b4, b5, b6, b7, b8, b9, b10, b11], 4⟩ : ProtocolResponse)
      = (bytesToSigned [b4], ⟨[b0, b1, b2, b3, b4, b5, b6, b7, b8, b9, b10, b11], 5⟩) := rfl
  have e6 : read_byte (⟨[b0, b1, b2, b3, b4, b5, b6, b7, b8, b9, b10, b11], 5⟩ : ProtocolResponse)
      = (bytesToSigned [b5], ⟨[b0, b1, b2, b3, b4, b5, b6, b7, b8, b9, b10, b11], 6⟩) := rfl
  have e7 : read_decimal2 (⟨[b0, b1, b2, b3, b4, b5, b6, b7, b8, b9, b10, b11], 6⟩ :
        ProtocolResponse) 100
      = ((bytesToSigned [b6, b7] : Rat) / ((100 : Int) : Rat),
         ⟨[b0, b1, b2, b3, b4, b5, b6, b7, b8, b9, b10, b11], 8⟩) := rfl
  have e8 : read_bytes2 (⟨[b0, b1, b2, b3, b4, b5, b6, b7, b8, b9, b10, b11], 8⟩ : ProtocolResponse)
      = (bytesToSigned [b8, b9], ⟨[b0, b1, b2, b3, b4, b5, b6, b7, b8, b9, b10, b11], 10⟩) := rfl
  simp only [PeakShavingMode.read_value, psCheck, e1, e2, e3, e4, e5, e6, e7, e8]

/-- Claim C5: the claim states that any out-of-range field aborts the decode
with a validation error identifying the field and the offending value.  This
is refuted: the v1 input below carries the out-of-range day_bits byte 128
(signed value -128), and the decode aborts with the IndexError raised inside
day-of-week name decoding, which identifies no field and no value, not with
a validation range error. -/
theorem ecoModeV1_day_bits_index_error :
    EcoModeV1.read_value ⟨[0, 0, 23, 59, 0, 0, 255, 128], 0⟩ = .error .indexError ∧
    DecodeErr.indexError ≠ .rangeError "day_bits" (-128) := by
  exact ⟨by decide, by decide⟩

/-- Claim C5 (amended): for each composite layout, decoding an input of the
layout width succeeds iff every field lies in its declared range, and any
out-of-range field aborts the decode with a range error identifying that
field and its offending value, except an out-of-range day_bits in
[-128, -64], which aborts with the IndexError raised inside day-of-week
name decoding before the day_bits range check. -/
theorem composite_decode_all_or_nothing :
    (∀ b0 b1 b2 b3 b4 b5 b6 b7 : Nat,
      b0 < 256 → b1 < 256 → b2 < 256 → b3 < 256 →
      b4 < 256 → b5 < 256 → b6 < 256 → b7 < 256 →
      (isOkE (EcoModeV1.read_value ⟨[b0, b1, b2, b3, b4, b5, b6, b7], 0⟩) = true ↔
        (hourOk (bytesToSigned [b0]) ∧ minuteOk (bytesToSigned [b1]) ∧
         hourOk (bytesToSigned [b2]) ∧ minuteOk (bytesToSigned [b3]) ∧
         (-100 ≤ bytesToSigned [b4, b5] ∧ bytesToSigned [b4, b5] ≤ 100) ∧
         (bytesToSigned [b6] = 0 ∨ bytesToSigned [b6] = -1) ∧
         0 ≤ bytesToSigned [b7])) ∧
      (∀ e, EcoModeV1.read_value ⟨[b0, b1, b2, b3, b4, b5, b6, b7], 0⟩ = .error e →
        (e = .rangeError "start_h" (bytesToSigned [b0]) ∧ ¬hourOk (bytesToSigned [b0])) ∨
        (e = .rangeError "start_m" (bytesToSigned [b1]) ∧ ¬minuteOk (bytesToSigned [b1])) ∨
        (e = .rangeError "end_h" (bytesToSigned [b2]) ∧ ¬hourOk (bytesToSigned [b2])) ∨
        (e = .rangeError "end_m" (bytesToSigned [b3]) ∧ ¬minuteOk (bytesToSigned [b3])) ∨
        (e = .rangeError "power" (bytesToSigned [b4, b5]) ∧
          ¬(-100 ≤ bytesToSigned [b4, b5] ∧ bytesToSigned [b4, b5] ≤ 100)) ∨
        (e = .rangeError "on_off" (bytesToSigned [b6]) ∧
          ¬(bytesToSigned [b6] = 0 ∨ bytesToSigned [b6] = -1)) ∨
        (e = .rangeError "day_bits" (bytesToSigned [b7]) ∧ bytesToSigned [b7] < 0) ∨
        (e = .indexError ∧ -128 ≤ bytesToSigned [b7] ∧ bytesToSigned [b7] ≤ -64))) ∧
    (∀ b0 b1 b2 b3 b4 b5 b6 b7 b8 b9 b10 b11 : Nat,
      b0 < 256 → b1 < 256 → b2 < 256 → b3 < 256 → b4 < 256 → b5 < 256 →
      b6 < 256 → b7 < 256 → b8 < 256 → b9 < 256 → b10 < 256 → b11 < 256 →
      (isOkE (EcoModeV2.read_value
            ⟨[b0, b1, b2, b3, b4, b5, b6, b7, b8, b9, b10, b11], 0⟩) = true ↔
        (hourOk (bytesToSigned [b0]) ∧ minuteOk (bytesToSigned [b1]) ∧
         hourOk (bytesToSigned [b2]) ∧ minuteOk (bytesToSigned [b3]) ∧
         (bytesToSigned [b4] = 0 ∨ bytesToSigned [b4] = -1 ∨ bytesToSigned [b4] = 85) ∧
         0 ≤ bytesToSigned [b5] ∧
         (-100 ≤ bytesToSigned [b6, b7] ∧ bytesToSigned [b6, b7] ≤ 100) ∧
         (0 ≤ bytesToSigned [b8, b9] ∧ bytesToSigned [b8, b9] ≤ 100))) ∧
      (∀ e, EcoModeV2.read_value ⟨[b0, b1, b2, b3, b4, b5, b6, b7, b8, b9, b10, b11], 0⟩
          = .error e →
        (e = .rangeError "start_h" (bytesToSigned [b0]) ∧ ¬hourOk (bytesToSigned [b0])) ∨
        (e = .rangeError "start_m" (bytesToSigned [b1]) ∧ ¬minuteOk (bytesToSigned [b1])) ∨
        (e = .rangeError "end_h" (bytesToSigned [b2]) ∧ ¬hourOk (bytesToSigned [b2])) ∨
        (e = .rangeError "end_m" (bytesToSigned [b3]) ∧ ¬minuteOk (bytesToSigned [b3])) ∨
        (e = .rangeError "on_off" (bytesToSigned [b4]) ∧
          ¬(bytesToSigned [b4] = 0 ∨ bytesToSigned [b4] = -1 ∨ bytesToSigned [b4] = 85)) ∨
        (e = .rangeError "day_bits" (bytesToSigned [b5]) ∧ bytesToSigned [b5] < 0) ∨
        (e = .rangeError "power" (bytesToSigned [b6, b7]) ∧
          ¬(-100 ≤ bytesToSigned [b6, b7] ∧ bytesToSigned [b6, b7] ≤ 100)) ∨
        (e = .rangeError "SoC" (bytesToSigned [b8, b9]) ∧
          ¬(0 ≤ bytesToSigned [b8, b9] ∧ bytesToSigned [b8, b9] ≤ 100)) ∨
        (e = .indexError ∧ -128 ≤ bytesToSigned [b5] ∧ bytesToSigned [b5] ≤ -64))) ∧
    (∀ b0 b1 b2 b3 b4 b5 b6 b7 b8 b9 b10 b11 : Nat,
      b0 < 256 → b1 < 256 → b2 < 256 → b3 < 256 → b4 < 256 → b5 < 256 →
      b6 < 256 → b7 < 256 → b8 < 256 → b9 < 256 → b10 < 256 → b11 < 256 →
      (isOkE (PeakShavingMode.read_value
            ⟨[b0, b1, b2, b3, b4, b5, b6, b7, b8, b9, b10, b11], 0⟩) = true ↔
        (hourOk (bytesToSigned [b0]) ∧ minuteOk (bytesToSigned [b1]) ∧
         hourOk (bytesToSigned [b2]) ∧ minuteOk (bytesToSigned [b3]) ∧
         (bytesToSigned [b4] = -4 ∨ bytesToSigned [b4] = 3 ∨ bytesToSigned [b4] = 85) ∧
         0 ≤ bytesToSigned [b5] ∧
         (0 ≤ (bytesToSigned [b6, b7] : Rat) / ((100 : Int) : Rat) ∧
          (bytesToSigned [b6, b7] : Rat) / ((100 : Int) : Rat) ≤ 500) ∧
         (0 ≤ bytesToSigned [b8, b9] ∧ bytesToSigned [b8, b9] ≤ 100))) ∧
      (∀ e, PeakShavingMode.read_value ⟨[b0, b1, b2, b3, b4, b5, b6, b7, b8, b9, b10, b11], 0⟩
          = .error e →
        (e = .rangeError "start_h" (bytesToSigned [b0]) ∧ ¬hourOk (bytesToSigned [b0])) ∨
        (e = .rangeError "start_m" (bytesToSigned [b1]) ∧ ¬minuteOk (bytesToSigned [b1])) ∨
        (e = .rangeError "end_h" (bytesToSigned [b2]) ∧ ¬hourOk (bytesToSigned [b2])) ∨
        (e = .rangeError "end_m" (bytesToSigned [b3]) ∧ ¬minuteOk (bytesToSigned [b3])) ∨
        (e = .rangeError "on_off" (bytesToSigned [b4]) ∧
          ¬(bytesToSigned [b4] = -4 ∨ bytesToSigned [b4] = 3 ∨ bytesToSigned [b4] = 85)) ∨
        (e = .rangeError "day_bits" (bytesToSigned [b5]) ∧ bytesToSigned [b5] < 0) ∨
        (e = .rangeError "import_power" ((bytesToSigned [b6, b7] : Rat) / ((100 : Int) : Rat)) ∧
          ¬(0 ≤ (bytesToSigned [b6, b7] : Rat) / ((100 : Int) : Rat) ∧
            (bytesToSigned [b6, b7] : Rat) / ((100 : Int) : Rat) ≤ 500)) ∨
        (e = .rangeError "soc" (bytesToSigned [b8, b9]) ∧
          ¬(0 ≤ bytesToSigned [b8, b9] ∧ bytesToSigned [b8, b9] ≤ 100)) ∨
        (e = .indexError ∧ -128 ≤ bytesToSigned [b5] ∧ bytesToSigned [b5] ≤ -64))) := by
  refine ⟨?_, ?_, ?_⟩
  · intro b0 b1 b2 b3 b4 b5 b6 b7 h0 h1 h2 h3 h4 h5 h6 h7
    rw [ecoModeV1_read_value_eval]
    unfold v1Check hourOk minuteOk
    by_cases c1 : (bytesToSigned [b0] < 0 ∨ 23 < bytesToSigned [b0]) ∧ bytesToSigned [b0] ≠ 48
    · rw [if_pos c1]
      exact ⟨⟨fun hA => absurd hA (by simp [isOkE]), fun hR => absurd hR.1 (by omega)⟩,
        fun e he => Or.inl ⟨(Except.error.inj he).symm, by omega⟩⟩
    · rw [if_neg c1]
      by_cases c2 : bytesToSigned [b1] < 0 ∨ 59 < bytesToSigned [b1]
      · rw [if_pos c2]
        exact ⟨⟨fun hA => absurd hA (by simp [isOkE]), fun hR => absurd hR.2.1 (by omega)⟩,
          fun e he => Or.inr (Or.inl ⟨(Except.error.inj he).symm, by omega⟩)⟩
      · rw [if_neg c2]
        by_cases c3 : (bytesToSigned [b2] < 0 ∨ 23 < bytesToSigned [b2]) ∧
            bytesToSigned [b2] ≠ 48
        · rw [if_pos c3]
          exact ⟨⟨fun hA => absurd hA (by simp [isOkE]), fun hR => absurd hR.2.2.1 (by omega)⟩,
            fun e he => Or.inr (Or.inr (Or.inl ⟨(Except.error.inj he).symm, by omega⟩))⟩
        · rw [if_neg c3]
          by_cases c4 : bytesToSigned [b3] < 0 ∨ 59 < bytesToSigned [b3]
          · rw [if_pos c4]
            exact ⟨⟨fun hA => absurd hA (by simp [isOkE]),
                fun hR => absurd hR.2.2.2.1 (by omega)⟩,
              fun e he => Or.inr (Or.inr (Or.inr (Or.inl
                ⟨(Except.error.inj he).symm, by omega⟩)))⟩
          · rw [if_neg c4]
            by_cases c5 : bytesToSigned [b4, b5] < -100 ∨ 100 < bytesToSigned [b4, b5]
            · rw [if_pos c5]
              exact ⟨⟨fun hA => absurd hA (by simp [isOkE]),
                  fun hR => absurd hR.2.2.2.2.1 (by omega)⟩,
                fun e he => Or.inr (Or.inr (Or.inr (Or.inr (Or.inl
                  ⟨(Except.error.inj he).symm, by omega⟩))))⟩
            · rw [if_neg c5]
              by_cases c6 : bytesToSigned [b6] = 0 ∨ bytesToSigned [b6] = -1
              · rw [if_neg (not_not_intro c6)]
                cases hd : decode_day_of_week (bytesToSigned [b7]) with
                | error e0 =>
                  simp only [hd]
                  have hok := decode_day_of_week_byte_fails b7 h7
                  rw [hd] at hok
                  have hb7 : 128 ≤ b7 ∧ b7 ≤ 192 := hok.mp rfl
                  have hs7 : bytesToSigned [b7] = (b7 : Int) - 256 := by
                    rw [bytesToSigned_byte b7 h7, if_neg (by omega)]
                  exact ⟨⟨fun hA => absurd hA (by simp [isOkE]),
                      fun hR => absurd hR.2.2.2.2.2.2 (by omega)⟩,
                    fun e he => Or.inr (Or.inr (Or.inr (Or.inr (Or.inr (Or.inr (Or.inr
                      ⟨by rw [← Except.error.inj he]; exact decode_day_of_week_error_eq _ _ hd,
                       by omega, by omega⟩))))))⟩
                | ok days =>
                  simp only [hd]
                  by_cases c7 : bytesToSigned [b7] < 0
                  · rw [if_pos c7]
                    exact ⟨⟨fun hA => absurd hA (by simp [isOkE]),
                        fun hR => absurd hR.2.2.2.2.2.2 (by omega)⟩,
                      fun e he => Or.inr (Or.inr (Or.inr (Or.inr (Or.inr (Or.inr (Or.inl
                        ⟨(Except.error.inj he).symm, c7⟩))))))⟩
                  · rw [if_neg c7]
                    exact ⟨⟨fun _ => ⟨by omega, by omega, by omega, by omega,
                        ⟨by omega, by omega⟩, c6, by omega⟩, fun _ => rfl⟩,
                      fun e he => Except.noConfusion he⟩
              · rw [if_pos c6]
                exact ⟨⟨fun hA => absurd hA (by simp [isOkE]),
                    fun hR => absurd hR.2.2.2.2.2.1 c6⟩,
                  fun e he => Or.inr (Or.inr (Or.inr (Or.inr (Or.inr (Or.inl
                    ⟨(Except.error.inj he).symm, c6⟩)))))⟩
  · intro b0 b1 b2 b3 b4 b5 b6 b7 b8 b9 b10 b11 h0 h1 h2 h3 h4 h5 h6 h7 h8 h9 h10 h11
    rw [ecoModeV2_read_value_eval]
    unfold v2Check hourOk minuteOk
    by_cases c1 : (bytesToSigned [b0] < 0 ∨ 23 < bytesToSigned [b0]) ∧ bytesToSigned [b0] ≠ 48
    · rw [if_pos c1]
      exact ⟨⟨fun hA => absurd hA (by simp [isOkE]), fun hR => absurd hR.1 (by omega)⟩,
        fun e he => Or.inl ⟨(Except.error.inj he).symm, by omega⟩⟩
    · rw [if_neg c1]
      by_cases c2 : bytesToSigned [b1] < 0 ∨ 59 < bytesToSigned [b1]
      · rw [if_pos c2]
        exact ⟨⟨fun hA => absurd hA (by simp [isOkE]), fun hR => absurd hR.2.1 (by omega)⟩,
          fun e he => Or.inr (Or.inl ⟨(Except.error.inj he).symm, by omega⟩)⟩
      · rw [if_neg c2]
        by_cases c3 : (bytesToSigned [b2] < 0 ∨ 23 < bytesToSigned [b2]) ∧
            bytesToSigned [b2] ≠ 48
        · rw [if_pos c3]
          exact ⟨⟨fun hA => absurd hA (by simp [isOkE]), fun hR => absurd hR.2.2.1 (by omega)⟩,
            fun e he => Or.inr (Or.inr (Or.inl ⟨(Except.error.inj he).symm, by omega⟩))⟩
        · rw [if_neg c3]
          by_cases c4 : bytesToSigned [b3] < 0 ∨ 59 < bytesToSigned [b3]
          · rw [if_pos c4]
            exact ⟨⟨fun hA => absurd hA (by simp [isOkE]),
                fun hR => absurd hR.2.2.2.1 (by omega)⟩,
              fun e he => Or.inr (Or.inr (Or.inr (Or.inl
                ⟨(Except.error.inj he).symm, by omega⟩)))⟩
          · rw [if_neg c4]
            by_cases c5 : bytesToSigned [b4] = 0 ∨ bytesToSigned [b4] = -1 ∨
                bytesToSigned [b4] = 85
            · rw [if_neg (not_not_intro c5)]
              cases hd : decode_day_of_week (bytesToSigned [b5]) with
              | error e0 =>
                simp only [hd]
                have hok := decode_day_of_week_byte_fails b5 h5
                rw [hd] at hok
                have hb5 : 128 ≤ b5 ∧ b5 ≤ 192 := hok.mp rfl
                have hs5 : bytesToSigned [b5] = (b5 : Int) - 256 := by
                  rw [bytesToSigned_byte b5 h5, if_neg (by omega)]
                exact ⟨⟨fun hA => absurd hA (by simp [isOkE]),
                    fun hR => absurd hR.2.2.2.2.2.1 (by omega)⟩,
                  fun e he => Or.inr (Or.inr (Or.inr (Or.inr (Or.inr (Or.inr (Or.inr (Or.inr
                    ⟨by rw [← Except.error.inj he]; exact decode_day_of_week_error_eq _ _ hd,
                     by omega, by omega⟩)))))))⟩
              | ok days =>
                simp only [hd]
                by_cases c6 : bytesToSigned [b5] < 0
                · rw [if_pos c6]
                  exact ⟨⟨fun hA => absurd hA (by simp [isOkE]),
                      fun hR => absurd hR.2.2.2.2.2.1 (by omega)⟩,
                    fun e he => Or.inr (Or.inr (Or.inr (Or.inr (Or.inr (Or.inl
                      ⟨(Except.error.inj he).symm, c6⟩)))))⟩
                · rw [if_neg c6]
                  by_cases c7 : bytesToSigned [b6, b7] < -100 ∨ 100 < bytesToSigned [b6, b7]
                  · rw [if_pos c7]
                    exact ⟨⟨fun hA => absurd hA (by simp [isOkE]),
                        fun hR => absurd hR.2.2.2.2.2.2.1 (by omega)⟩,
                      fun e he => Or.inr (Or.inr (Or.inr (Or.inr (Or.inr (Or.inr (Or.inl
                        ⟨(Except.error.inj he).symm, by omega⟩))))))⟩
                  · rw [if_neg c7]
                    by_cases c8 : bytesToSigned [b8, b9] < 0 ∨ 100 < bytesToSigned [b8, b9]
                    · rw [if_pos c8]
                      exact ⟨⟨fun hA => absurd hA (by simp [isOkE]),
                          fun hR => absurd hR.2.2.2.2.2.2.2 (by omega)⟩,
                        fun e he => Or.inr (Or.inr (Or.inr (Or.inr (Or.inr (Or.inr (Or.inr
                          (Or.inl ⟨(Except.error.inj he).symm, by omega⟩)))))))⟩
                    · rw [if_neg c8]
                      exact ⟨⟨fun _ => ⟨by omega, by omega, by omega, by omega, c5, by omega,
                          ⟨by omega, by omega⟩, ⟨by omega, by omega⟩⟩, fun _ => rfl⟩,
                        fun e he => Except.noConfusion he⟩
            · rw [if_pos c5]
              exact ⟨⟨fun hA => absurd hA (by simp [isOkE]),
                  fun hR => absurd hR.2.2.2.2.1 c5⟩,
                fun e he => Or.inr (Or.inr (Or.inr (Or.inr (Or.inl
                  ⟨(Except.error.inj he).symm, c5⟩))))⟩
  · intro b0 b1 b2 b3 b4 b5 b6 b7 b8 b9 b10 b11 h0 h1 h2 h3 h4 h5 h6 h7 h8 h9 h10 h11
    rw [peakShaving_read_value_eval]
    unfold psCheck hourOk minuteOk
    by_cases c1 : (bytesToSigned [b0] < 0 ∨ 23 < bytesToSigned [b0]) ∧ bytesToSigned [b0] ≠ 48
    · rw [if_pos c1]
      exact ⟨⟨fun hA => absurd hA (by simp [isOkE]), fun hR => absurd hR.1 (by omega)⟩,
        fun e he => Or.inl ⟨(Except.error.inj he).symm, by omega⟩⟩
    · rw [if_neg c1]
      by_cases c2 : bytesToSigned [b1] < 0 ∨ 59 < bytesToSigned [b1]
      · rw [if_pos c2]
        exact ⟨⟨fun hA => absurd hA (by simp [isOkE]), fun hR => absurd hR.2.1 (by omega)⟩,
          fun e he => Or.inr (Or.inl ⟨(Except.error.inj he).symm, by omega⟩)⟩
      · rw [if_neg c2]
        by_cases c3 : (bytesToSigned [b2] < 0 ∨ 23 < bytesToSigned [b2]) ∧
            bytesToSigned [b2] ≠ 48
        · rw [if_pos c3]
          exact ⟨⟨fun hA => absurd hA (by simp [isOkE]), fun hR => absurd hR.2.2.1 (by omega)⟩,
            fun e he => Or.inr (Or.inr (Or.inl ⟨(Except.error.inj he).symm, by omega⟩))⟩
        · rw [if_neg c3]
          by_cases c4 : bytesToSigned [b3] < 0 ∨ 59 < bytesToSigned [b3]
          · rw [if_pos c4]
            exact ⟨⟨fun hA => absurd hA (by simp [isOkE]),
                fun hR => absurd hR.2.2.2.1 (by omega)⟩,
              fun e he => Or.inr (Or.inr (Or.inr (Or.inl
                ⟨(Except.error.inj he).symm, by omega⟩)))⟩
          · rw [if_neg c4]
            by_cases c5 : bytesToSigned [b4] = -4 ∨ bytesToSigned [b4] = 3 ∨
                bytesToSigned [b4] = 85
            · rw [if_neg (not_not_intro c5)]
              cases hd : decode_day_of_week (bytesToSigned [b5]) with
              | error e0 =>
                simp only [hd]
                have hok := decode_day_of_week_byte_fails b5 h5
                rw [hd] at hok
                have hb5 : 128 ≤ b5 ∧ b5 ≤ 192 := hok.mp rfl
                have hs5 : bytesToSigned [b5] = (b5 : Int) - 256 := by
                  rw [bytesToSigned_byte b5 h5, if_neg (by omega)]
                exact ⟨⟨fun hA => absurd hA (by simp [isOkE]),
                    fun hR => absurd hR.2.2.2.2.2.1 (by omega)⟩,
                  fun e he => Or.inr (Or.inr (Or.inr (Or.inr (Or.inr (Or.inr (Or.inr (Or.inr
                    ⟨by rw [← Except.error.inj he]; exact decode_day_of_week_error_eq _ _ hd,
                     by omega, by omega⟩)))))))⟩
              | ok days =>
                simp only [hd]
                by_cases c6 : bytesToSigned [b5] < 0
                · rw [if_pos c6]
                  exact ⟨⟨fun hA => absurd hA (by simp [isOkE]),
                      fun hR => absurd hR.2.2.2.2.2.1 (by omega)⟩,
                    fun e he => Or.inr (Or.inr (Or.inr (Or.inr (Or.inr (Or.inl
                      ⟨(Except.error.inj he).symm, c6⟩)))))⟩
                · rw [if_neg c6]
                  by_cases c7 : (bytesToSigned [b6, b7] : Rat) / ((100 : Int) : Rat) < 0 ∨
                      500 < (bytesToSigned [b6, b7] : Rat) / ((100 : Int) : Rat)
                  · rw [if_pos c7]
                    exact ⟨⟨fun hA => absurd hA (by simp [isOkE]),
                        fun hR => absurd c7 (by push_neg; exact hR.2.2.2.2.2.2.1)⟩,
                      fun e he => Or.inr (Or.inr (Or.inr (Or.inr (Or.inr (Or.inr (Or.inl
                        ⟨(Except.error.inj he).symm,
                         fun hip => absurd c7 (by push_neg; exact hip)⟩))))))⟩
                  · rw [if_neg c7]
                    by_cases c8 : bytesToSigned [b8, b9] < 0 ∨ 100 < bytesToSigned [b8, b9]
                    · rw [if_pos c8]
                      exact ⟨⟨fun hA => absurd hA (by simp [isOkE]),
                          fun hR => absurd hR.2.2.2.2.2.2.2 (by omega)⟩,
                        fun e he => Or.inr (Or.inr (Or.inr (Or.inr (Or.inr (Or.inr (Or.inr
                          (Or.inl ⟨(Except.error.inj he).symm, by omega⟩)))))))⟩
                    · rw [if_neg c8]
                      push_neg at c7
                      exact ⟨⟨fun _ => ⟨by omega, by omega, by omega, by omega, c5, by omega,
                          ⟨c7.1, c7.2⟩, ⟨by omega, by omega⟩⟩, fun _ => rfl⟩,
                        fun e he => Except.noConfusion he⟩
            · rw [if_pos c5]
              exact ⟨⟨fun hA => absurd hA (by simp [isOkE]),
                  fun hR => absurd hR.2.2.2.2.1 c5⟩,
                fun e he => Or.inr (Or.inr (Or.inr (Or.inr (Or.inl
                  ⟨(Except.error.inj he).symm, c5⟩))))⟩

theorem composite_decode_all_or_nothing_witness :
    isOkE (EcoModeV1.read_value ⟨[0, 0, 23, 59, 0, 50, 255, 127], 0⟩) = true ∧
    isOkE (EcoModeV2.read_value ⟨[48, 0, 48, 0, 85, 127, 255, 206, 0, 100, 0, 0], 0⟩) = true ∧
    isOkE (PeakShavingMode.read_value ⟨[0, 0, 23, 59, 252, 127, 0, 200, 0, 80, 0, 0], 0⟩)
      = true :=
  ⟨((composite_decode_all_or_nothing.1 0 0 23 59 0 50 255 127 (by decide) (by decide)
      (by decide) (by decide) (by decide) (by decide) (by decide) (by decide)).1).mpr
    (by refine ⟨by decide, by decide, by decide, by decide, ⟨by decide, by decide⟩,
          by decide, by decide⟩),
   ((composite_decode_all_or_nothing.2.1 48 0 48 0 85 127 255 206 0 100 0 0 (by decide)
      (by decide) (by decide) (by decide) (by decide) (by decide) (by decide) (by decide)
      (by decide) (by decide) (by decide) (by decide)).1).mpr
    (by refine ⟨by decide, by decide, by decide, by decide, by decide, by decide,
          ⟨by decide, by decide⟩, ⟨by decide, by decide⟩⟩),
   ((composite_decode_all_or_nothing.2.2 0 0 23 59 252 127 0 200 0 80 0 0 (by decide)
      (by decide) (by decide) (by decide) (by decide) (by decide) (by decide) (by decide)
      (by decide) (by decide) (by decide) (by decide)).1).mpr
    (by
      have hip : bytesToSigned [0, 200] = (200 : Int) := by decide
      refine ⟨by decide, by decide, by decide, by decide, by decide, by decide,
        ⟨?_, ?_⟩, ⟨by decide, by decide⟩⟩
      · rw [hip]; norm_num
      · rw [hip]; norm_num)⟩

end Goodwe
